import Mathlib

/-!
Shallow embedding of `src/test-no-providers-http-routing.js`, a Node.js
reproduction harness that drives a kubo daemon against mock HTTP routers
returning "no providers found", and classifies the outcome of a CID-fetch
probe.  Machine state (flags mutated by event handlers) is made explicit;
subprocess behaviour is an input parameter (a trace) of each function.
-/

namespace KuboHarness

/-! ## Outcome classifier (lines 451-480 of the source)

The analysis block reads the mutable flags `getExited`, `getExitCode`
(`null` encoded as `none`) and the accumulated `getError` string at the
moment the `=== CID FETCH ANALYSIS ===` section runs. -/

/-- The four terminal labels of the spec.  The source's final `else`
branch (line 475, "CID fetch timed out without proper error handling")
also denotes the hang/timeout bug pattern, so it maps to `HangBug`. -/
inductive Verdict where
  | HangBug
  | ExpectedFailure
  | SilentFailure
  | UnexpectedSuccess
  deriving DecidableEq, Repr

/-- Transcription of the `if`/`else if` chain at lines 453-480:
`!getExited` first, then `getExitCode !== 0 && getError.length > 0`,
then `getExitCode !== 0 && getError.length === 0`, then
`getExitCode === 0`, else the dead timed-out branch.  JavaScript's
`null !== 0` is `true`, hence the comparison on `Option Int`. -/
def classify (exited : Bool) (exitCode : Option Int) (stderrText : String) : Verdict :=
  if !exited then .HangBug
  else if exitCode ≠ some 0 && stderrText ≠ "" then .ExpectedFailure
  else if exitCode ≠ some 0 && stderrText = "" then .SilentFailure
  else if exitCode = some 0 then .UnexpectedSuccess
  else .HangBug

/-- The spec's §4.6 decision table, written from the spec's own words in
its stated order, to be compared with `classify`:
1. timedOut → HangBug; 2. exitCode == 0 → UnexpectedSuccess;
3. exitCode != 0 and empty stderr → SilentFailure; 4. otherwise
ExpectedFailure. -/
def specClassify (timedOut : Bool) (exitCode : Option Int) (stderrText : String) : Verdict :=
  if timedOut then .HangBug
  else if exitCode = some 0 then .UnexpectedSuccess
  else if stderrText = "" then .SilentFailure
  else .ExpectedFailure

/-- Spec §3 `ProbeResult`: the data visible to the analysis block.
`timedOut` is the printed `Timeout reached: !getExited` flag, i.e. the
negation of `getExited` at analysis time. -/
structure ProbeResultData where
  exitCode : Option Int
  stderrText : String
  stdoutText : String
  timedOut : Bool
  elapsedMs : Nat
  deriving DecidableEq, Repr

/-- The classifier as run by the source on a probe result: it reads only
`timedOut` (as `!getExited`), `exitCode` and `stderrText`; `stdoutText`
and `elapsedMs` are printed but never branched on. -/
def classifyResult (r : ProbeResultData) : Verdict :=
  classify (!r.timedOut) r.exitCode r.stderrText

/-! ## Probe phase trace semantics (lines 399-448)

The fetch subprocess is modelled by what the harness can observe of it:
whether its `exit` event fires before the 120 s deadline (with which
code), and — when it does not and the harness sends `SIGKILL` — whether
the exit event is delivered during the subsequent 1-second drain sleep
(for a `SIGKILL`ed process Node reports the exit with a `null` code).
`getError`/`getOutput` accumulate independently of exiting. -/

structure ProbeTrace where
  /-- the `exit` event fires before the deadline elapses -/
  exitsBeforeDeadline : Bool
  /-- code delivered by that pre-deadline exit event (`null` = `none`) -/
  exitCodeIfExit : Option Int
  /-- after the timeout `SIGKILL`, the exit event is observed during the
  `await sleep(1000)` drain at line 438 -/
  exitsDuringDrain : Bool
  /-- code delivered by the during-drain exit event -/
  drainExitCode : Option Int
  /-- final accumulated stderr text -/
  stderrText : String
  /-- final accumulated stdout text -/
  stdoutText : String
  deriving DecidableEq, Repr

/-- State of the mutable flags `getExited` / `getExitCode` when the
analysis block runs, together with the accumulated streams: the wait
loop at line 428 ends on exit or deadline; on deadline the process is
killed and the drain sleep may still deliver the exit event before
line 453 reads `getExited`. -/
def probeObserved (t : ProbeTrace) : ProbeResultData :=
  if t.exitsBeforeDeadline then
    { exitCode := t.exitCodeIfExit, stderrText := t.stderrText,
      stdoutText := t.stdoutText, timedOut := false, elapsedMs := 0 }
  else if t.exitsDuringDrain then
    { exitCode := t.drainExitCode, stderrText := t.stderrText,
      stdoutText := t.stdoutText, timedOut := false, elapsedMs := 120000 }
  else
    { exitCode := none, stderrText := t.stderrText,
      stdoutText := t.stdoutText, timedOut := true, elapsedMs := 120000 }

/-- Verdict the source produces for a whole probe execution. -/
def classifyRun (t : ProbeTrace) : Verdict :=
  classifyResult (probeObserved t)

/-! ## Port availability check (lines 17-58)

`checkPortFree` performs one bind-then-release attempt; its outcome is
modelled by an oracle `free : Nat → Bool`.  `checkRequiredPorts`
iterates the fixed list and `return false` as soon as one port is
occupied, logging only that port. -/

structure PortSpecEntry where
  port : Nat
  description : String
  deriving DecidableEq, Repr

/-- The fixed `requiredPorts` array at lines 34-40 (router ports 19999
and 19998 are the constants `HTTP_ROUTER_1_PORT` / `HTTP_ROUTER_2_PORT`). -/
def requiredPorts : List PortSpecEntry :=
  [ ⟨54321, "Kubo Swarm"⟩,
    ⟨54322, "Kubo API"⟩,
    ⟨54323, "Kubo Gateway"⟩,
    ⟨19999, "HTTP Router 1 (will return no providers)"⟩,
    ⟨19998, "HTTP Router 2 (will return no providers)"⟩ ]

/-- The `for` loop of `checkRequiredPorts`: returns the boolean result
and the list of ports reported as occupied (the `❌ Port ...` log
lines).  On the first occupied port the source logs it and
`return false` immediately. -/
def checkRequiredPortsOn (free : Nat → Bool) : List PortSpecEntry → Bool × List Nat
  | [] => (true, [])
  | s :: rest =>
    if free s.port then checkRequiredPortsOn free rest
    else (false, [s.port])

/-! ## Mock HTTP router (lines 60-110) -/

structure HttpRequest where
  method : String
  url : String
  deriving DecidableEq, Repr

/-- Observable response: status, `Content-Type` and `Cache-Control`
headers when set by `writeHead`, and the body passed to `res.end`
(`none` for `res.end()` with no argument). -/
structure HttpResponse where
  status : Nat
  contentType : Option String
  cacheControl : Option String
  body : Option String
  deriving DecidableEq, Repr

/-- Result of `JSON.stringify({ Message: "no providers found" })`. -/
def noProvidersBody : String := "\x7b\"Message\":\"no providers found\"\x7d"

/-- Result of `JSON.stringify({ Message: "not found" })`. -/
def notFoundBody : String := "\x7b\"Message\":\"not found\"\x7d"

/-- The string `"/routing/v1/providers/"` as a character list. -/
def providerPathChars : List Char := "/routing/v1/providers/".data

/-- Whether the list starts with `/routing/v1/providers/` followed by at
least one character other than `/`. -/
def providerMatchAt (l : List Char) : Bool :=
  match l.dropPrefix? providerPathChars with
  | some (c :: _) => c ≠ '/'
  | _ => false

/-- The unanchored JavaScript test
`req.url.match(/\/routing\/v1\/providers\/[^\/]+/)`: some suffix of the
URL matches the pattern at its start. -/
def hasProviderMatch : List Char → Bool
  | [] => false
  | c :: rest => providerMatchAt (c :: rest) || hasProviderMatch rest

/-- Request handler of `createNoProvidersHttpRouter` (lines 61-100):
OPTIONS preflight first, then the GET provider-query branch, then the
`/routing/v1/` branch, then the generic fallback.  The last two
branches produce identical observable responses. -/
def handleRequest (req : HttpRequest) : HttpResponse :=
  if req.method = "OPTIONS" then
    { status := 200, contentType := none, cacheControl := none, body := none }
  else if req.method = "GET" && hasProviderMatch req.url.data then
    { status := 404, contentType := some "application/json",
      cacheControl := some "public, max-age=300", body := some noProvidersBody }
  else if List.isPrefixOf "/routing/v1/".data req.url.data then
    { status := 404, contentType := some "application/json",
      cacheControl := none, body := some notFoundBody }
  else
    { status := 404, contentType := some "application/json",
      cacheControl := none, body := some notFoundBody }

/-- The provider-query response of the mock router. -/
def providerQueryResponse : HttpResponse :=
  { status := 404, contentType := some "application/json",
    cacheControl := some "public, max-age=300", body := some noProvidersBody }

/-- The generic not-found response of the mock router. -/
def genericNotFoundResponse : HttpResponse :=
  { status := 404, contentType := some "application/json",
    cacheControl := none, body := some notFoundBody }

/-! ## Repo provisioning and config verification (lines 136-233, 258-302)

`initializeIpfsRepo` writes a fixed `Routing` object (plus addresses and
MDNS) into the JSON config; `verifyKuboConfig` re-reads the config via
`ipfs config show` and checks a handful of fields with optional-chained
accesses.  The model keeps exactly the topology fields either function
touches; `Option` mirrors JavaScript optional chaining (`undefined` =
`none`). -/

/-- One entry of `HttpRoutersParallel.Parameters.Routers`. -/
structure ChildRouterRef where
  ignoreErrors : Bool
  routerName : String
  timeout : String
  deriving DecidableEq, Repr

/-- The topology-relevant slice of the kubo JSON config. -/
structure RoutingConfig where
  routingType : Option String
  methodFindPeers : Option String
  methodFindProviders : Option String
  methodGetIpns : Option String
  methodProvide : Option String
  methodPutIpns : Option String
  router1Endpoint : Option String
  router2Endpoint : Option String
  routerNotSupportedEndpoint : Option String
  parallelChildren : Option (List ChildRouterRef)
  deriving DecidableEq, Repr

/-- The `IGNORE_ERRORS` constant at line 11. -/
def IGNORE_ERRORS : Bool := true

/-- The config written by `initializeIpfsRepo` (lines 158-214):
`Routing.Type = "custom"`, the five method bindings, the three leaf
router endpoints (ports 19999/19998), and the two parallel children
with `Timeout: "5s"` and `IgnoreErrors: IGNORE_ERRORS`. -/
def provisionedConfig : RoutingConfig :=
  { routingType := some "custom",
    methodFindPeers := some "HttpRouterNotSupported",
    methodFindProviders := some "HttpRoutersParallel",
    methodGetIpns := some "HttpRouterNotSupported",
    methodProvide := some "HttpRoutersParallel",
    methodPutIpns := some "HttpRouterNotSupported",
    router1Endpoint := some "http://127.0.0.1:19999",
    router2Endpoint := some "http://127.0.0.1:19998",
    routerNotSupportedEndpoint := some "http://kubohttprouternotsupported",
    parallelChildren := some
      [ ⟨IGNORE_ERRORS, "HttpRouter1", "5s"⟩,
        ⟨IGNORE_ERRORS, "HttpRouter2", "5s"⟩ ] }

/-- The child loop at lines 294-298: throw on the first child whose
`IgnoreErrors` differs from `IGNORE_ERRORS`. -/
def verifyChildren : List ChildRouterRef → Except String Unit
  | [] => .ok ()
  | r :: rest =>
    if r.ignoreErrors ≠ IGNORE_ERRORS then
      .error ("Expected IgnoreErrors to be true for " ++ r.routerName)
    else verifyChildren rest

/-- Function `verifyKuboConfig` (lines 258-302): checks `Routing.Type`, the
`find-providers` binding, the two endpoints, and the children's
`IgnoreErrors` flags (skipped entirely when
`Routing.Routers.HttpRoutersParallel.Parameters.Routers` is absent).
`Timeout`, the other four method bindings and the
`HttpRouterNotSupported` endpoint are never read. -/
def verifyKuboConfig (c : RoutingConfig) : Except String Unit :=
  if c.routingType ≠ some "custom" then
    .error "Expected Routing.Type to be custom"
  else if c.methodFindProviders ≠ some "HttpRoutersParallel" then
    .error "Expected find-providers RouterName to be HttpRoutersParallel"
  else if c.router1Endpoint ≠ some "http://127.0.0.1:19999" then
    .error "Expected HttpRouter1 endpoint mismatch"
  else if c.router2Endpoint ≠ some "http://127.0.0.1:19998" then
    .error "Expected HttpRouter2 endpoint mismatch"
  else
    match c.parallelChildren with
    | some rs => verifyChildren rs
    | none => .ok ()

/-- The provisioned config with the first child's `Timeout` changed from
`"5s"` to `"10s"` and nothing else. -/
def timeoutMutatedConfig : RoutingConfig :=
  { provisionedConfig with parallelChildren := some [
      ⟨IGNORE_ERRORS, "HttpRouter1", "10s"⟩,
      ⟨IGNORE_ERRORS, "HttpRouter2", "5s"⟩] }

/-! ## Probe wait loop timing (lines 425-448)

With a command that never exits, `getExited` stays `false`, so the loop
`while (!getExited && (Date.now() - startTime2) < CID_FETCH_TIMEOUT_MS)
{ await sleep(1000); ... }` adds 1000 ms per iteration until the
elapsed time reaches the deadline; then the harness logs the timeout,
sends `SIGKILL` and sleeps 1000 ms more.  No exception is thrown on
this path. -/

/-- Constant `CID_FETCH_TIMEOUT_MS` at line 8. -/
def CID_FETCH_TIMEOUT_MS : Nat := 120000

/-- Elapsed milliseconds when the wait loop ends, for a process that
never exits, starting from elapsed time `e` (each iteration is one
`sleep(1000)`). -/
def probeWaitElapsed (deadline : Nat) (e : Nat) : Nat :=
  if e < deadline then probeWaitElapsed deadline (e + 1000) else e
termination_by deadline - e
decreasing_by omega

/-- Observable outcome of the probe phase for a never-exiting command:
the final `timedOut` flag, whether `SIGKILL` was sent, total elapsed
milliseconds including the 1000 ms drain sleep; `Except` records that
the path throws nothing (no `ProbeTimeoutError` exists in the source). -/
structure ProbeTimeoutOutcome where
  timedOut : Bool
  sigkillSent : Bool
  totalMs : Nat
  deriving DecidableEq, Repr

/-- Lines 425-448 specialised to a command that never exits: loop until
the deadline, then kill and drain.  `getExited` is still `false` at
line 435, so the kill branch runs and `Timeout reached` prints `true`. -/
def probeRunNeverExits (deadline : Nat) : Except String ProbeTimeoutOutcome :=
  .ok { timedOut := true, sigkillSent := true,
        totalMs := probeWaitElapsed deadline 0 + 1000 }

/-! ## Daemon readiness wait (lines 352-378)

`daemonReady` is set by the stdout handler once the accumulated output
contains `"Daemon is ready"`; the loop sleeps 1000 ms, then checks
`daemon.exitCode !== null` and dies fatally if the daemon exited.  The
loop has no deadline of its own.  The daemon is modelled by two
predicates over poll ticks: whether the marker has appeared in the
output by tick `t`, and the value of `daemon.exitCode` at tick `t`. -/

inductive ReadinessOutcome where
  | ready
  | startupFailed (daemonCode : Int)
  | stillWaiting
  deriving DecidableEq, Repr

/-- The `while (!daemonReady)` loop run for at most `fuel` iterations
from tick `t`: check the flag, sleep (tick advances), check
`daemon.exitCode`.  `stillWaiting` means the loop had not terminated
after `fuel` iterations. -/
def readinessWait (markerSeen : Nat → Bool) (exitCodeAt : Nat → Option Int) :
    Nat → Nat → ReadinessOutcome
  | 0, _ => .stillWaiting
  | fuel + 1, t =>
    if markerSeen t then .ready
    else
      match exitCodeAt (t + 1) with
      | some c => .startupFailed c
      | none => readinessWait markerSeen exitCodeAt fuel (t + 1)

/-! ## Probe phase control flow and cleanup (lines 380-519)

After the daemon is ready the harness verifies the config (on failure:
cleanup, then `process.exit(1)`), then runs the probe inside
`try { ... } catch { log } finally { await cleanup(...) }`.  The trace
of side effects is recorded as an ordered action list. -/

inductive HarnessAction where
  | verifyFailedLog
  | verdictLog (v : Verdict)
  | exceptionLog (msg : String)
  | cleanupRun
  | testCompletedLog
  | processExit (code : Nat)
  deriving DecidableEq, Repr

/-- Lines 382-489: the post-readiness section.  `verifyOutcome` is the
result of `verifyKuboConfig`; `probeOutcome` is either the probe trace
the `try` block observed or the message of an exception raised inside
the `try` block. -/
def postReadyActions (verifyOutcome : Except String Unit)
    (probeOutcome : Except String ProbeTrace) : List HarnessAction :=
  match verifyOutcome with
  | .error _ => [.verifyFailedLog, .cleanupRun, .processExit 1]
  | .ok () =>
    match probeOutcome with
    | .ok t => [.verdictLog (classifyRun t), .cleanupRun, .testCompletedLog]
    | .error m => [.exceptionLog m, .cleanupRun, .testCompletedLog]

/-! ## Daemon shutdown (lines 492-508)

`cleanup`'s daemon part: if `daemon.exitCode === null`, send `SIGTERM`,
poll up to 10 times at 500 ms, then escalate to `SIGKILL` plus a
1000 ms drain.  The daemon's reaction is modelled by how many polls
after `SIGTERM` its exit is observed (with which code), `none` meaning
it never exits from `SIGTERM` alone; `SIGKILL` always ends it. -/

inductive KillSignal where
  | SIGTERM
  | SIGKILL
  deriving DecidableEq, Repr

/-- A daemon process handle as `cleanup` sees it: `daemon.exitCode`,
with `none` meaning the process is still running. -/
structure DaemonHandle where
  exitCode : Option Int
  deriving DecidableEq, Repr

/-- How a running daemon responds to shutdown signals. -/
structure DaemonBehavior where
  /-- polls of the 500 ms loop after which the `SIGTERM` exit is
  visible, and the code; `none`: `SIGTERM` never makes it exit -/
  termExit : Option (Nat × Int)
  /-- exit code recorded once `SIGKILL` takes effect during the drain -/
  killCode : Int
  deriving DecidableEq, Repr

/-- Guard and loops of `cleanup` for the daemon: returns the handle afterwards
and the signals sent, in order.  On a handle whose `exitCode` is
already non-null the whole block is skipped. -/
def shutdownDaemon (h : DaemonHandle) (b : DaemonBehavior) :
    DaemonHandle × List KillSignal :=
  match h.exitCode with
  | some _ => (h, [])
  | none =>
    match b.termExit with
    | some (polls, code) =>
      if polls ≤ 10 then ({ exitCode := some code }, [.SIGTERM])
      else ({ exitCode := some b.killCode }, [.SIGTERM, .SIGKILL])
    | none => ({ exitCode := some b.killCode }, [.SIGTERM, .SIGKILL])

/-! ## Theorems -/

/-- Helper: the source's branch chain computes the spec's §4.6 table with
`timedOut` read as the negation of the exited flag. -/
theorem classify_eq_specClassify (ex : Bool) (c : Option Int) (s : String) :
    classify ex c s = specClassify (!ex) c s := by
  cases ex <;> by_cases hc : c = some 0 <;> by_cases hs : s = "" <;>
    simp [classify, specClassify, hc, hs]

/-- C1 counterexample: a probe with no exit before the deadline whose
force-killed process is reaped (with a `null` code and empty stderr)
during the 1 s drain sleep is classified `SilentFailure`, not
`HangBug`, because line 453 re-reads `getExited` after the drain. -/
theorem C1_counterexample :
    (ProbeTrace.mk false none true none "" "").exitsBeforeDeadline = false ∧
    classifyRun (ProbeTrace.mk false none true none "" "") = Verdict.SilentFailure ∧
    Verdict.SilentFailure ≠ Verdict.HangBug := by
  refine ⟨rfl, ?_, by decide⟩
  decide

/-- C1 (amended): the classifier follows the spec's decision table with
`timedOut` taken as the negation of the exited flag at analysis time;
a probe with no exit observed before the deadline is classified
`HangBug` provided its exit event is also not observed during the
post-kill drain. -/
theorem C1_decision_table :
    (∀ (ex : Bool) (c : Option Int) (s : String),
      classify ex c s = specClassify (!ex) c s) ∧
    (∀ t : ProbeTrace, t.exitsBeforeDeadline = false →
      t.exitsDuringDrain = false → classifyRun t = Verdict.HangBug) := by
  refine ⟨classify_eq_specClassify, ?_⟩
  intro t h1 h2
  simp [classifyRun, classifyResult, probeObserved, classify, h1, h2]

/-- Witness for C1: a trace that neither exits before the deadline nor
during the drain is classified `HangBug`. -/
theorem C1_decision_table_witness :
    classifyRun (ProbeTrace.mk false none false none "" "") = Verdict.HangBug :=
  C1_decision_table.2 (ProbeTrace.mk false none false none "" "") rfl rfl

/-- C9: the verdict depends only on the triple
`(timedOut, exitCode, stderrText)`; two probe results agreeing on that
triple get the same verdict whatever their `stdoutText` and
`elapsedMs`, and independently of any other call. -/
theorem C9_classify_deterministic (r1 r2 : ProbeResultData)
    (ht : r1.timedOut = r2.timedOut) (hc : r1.exitCode = r2.exitCode)
    (hs : r1.stderrText = r2.stderrText) :
    classifyResult r1 = classifyResult r2 := by
  simp [classifyResult, ht, hc, hs]

/-- Witness for C9: two results differing in stdout and elapsed time but
agreeing on the triple classify identically. -/
theorem C9_classify_deterministic_witness :
    classifyResult ⟨some 1, "err", "big stdout", false, 5⟩ =
      classifyResult ⟨some 1, "err", "", false, 119999⟩ :=
  C9_classify_deterministic ⟨some 1, "err", "big stdout", false, 5⟩
    ⟨some 1, "err", "", false, 119999⟩ rfl rfl rfl

/-- C2 counterexample: with every port occupied, the check on the
two-element list reports only the first port; 54322 disagrees with its
expected-free state yet is absent from the report. -/
theorem C2_counterexample :
    checkRequiredPortsOn (fun _ => false)
        [⟨54321, "Kubo Swarm"⟩, ⟨54322, "Kubo API"⟩] = (false, [54321]) ∧
    (⟨54322, "Kubo API"⟩ : PortSpecEntry) ∈
        [(⟨54321, "Kubo Swarm"⟩ : PortSpecEntry), ⟨54322, "Kubo API"⟩] ∧
    54322 ∉ [54321] := by
  refine ⟨rfl, ?_, by decide⟩
  simp

/-- C2 (amended): `checkRequiredPorts` succeeds with an empty report
when every port is free, and otherwise fails reporting exactly the
first occupied port encountered, not all of them. -/
theorem C2_first_mismatch_only (free : Nat → Bool) (specs : List PortSpecEntry) :
    checkRequiredPortsOn free specs =
      match specs.find? (fun s => !free s.port) with
      | none => (true, [])
      | some s => (false, [s.port]) := by
  induction specs with
  | nil => rfl
  | cons s rest ih =>
    by_cases h : free s.port <;>
      simp [checkRequiredPortsOn, List.find?, h, ih]

/-- C8: the daemon shutdown block is idempotent — on a handle whose
`exitCode` is already non-null it sends no signal and changes nothing,
and a second shutdown right after a first one is always such a no-op. -/
theorem C8_shutdown_idempotent :
    (∀ (c : Int) (b : DaemonBehavior),
      shutdownDaemon ⟨some c⟩ b = (⟨some c⟩, [])) ∧
    (∀ (h : DaemonHandle) (b b' : DaemonBehavior),
      shutdownDaemon (shutdownDaemon h b).1 b' = ((shutdownDaemon h b).1, [])) := by
  constructor
  · intro c b; rfl
  · intro h b b'
    match h with
    | ⟨some c⟩ => rfl
    | ⟨none⟩ =>
      match hb : b.termExit with
      | some (polls, code) =>
        by_cases hp : polls ≤ 10 <;> simp [shutdownDaemon, hb, hp]
      | none => simp [shutdownDaemon, hb]

/-- C7: on every path of the post-readiness section — config
verification failure, a probe observed to completion, or an exception
raised during the probe/classification — the cleanup action runs, and
it runs before the terminal action (fatal `process.exit(1)` or the
normal completion log). -/
theorem C7_cleanup_unconditional (vo : Except String Unit)
    (po : Except String ProbeTrace) :
    ∃ a z, postReadyActions vo po = [a, HarnessAction.cleanupRun, z] ∧
      a ≠ HarnessAction.cleanupRun ∧
      (z = HarnessAction.processExit 1 ∨ z = HarnessAction.testCompletedLog) := by
  match vo with
  | .error e => exact ⟨.verifyFailedLog, .processExit 1, rfl, by simp, Or.inl rfl⟩
  | .ok () =>
    match po with
    | .ok t =>
      exact ⟨.verdictLog (classifyRun t), .testCompletedLog, rfl, by simp, Or.inr rfl⟩
    | .error m =>
      exact ⟨.exceptionLog m, .testCompletedLog, rfl, by simp, Or.inr rfl⟩

/-- C3 counterexample: mutating a single per-child `Timeout` field of
the provisioned topology does not cause a verification error —
`verifyKuboConfig` never reads `Timeout`. -/
theorem C3_counterexample :
    verifyKuboConfig timeoutMutatedConfig = Except.ok () ∧
    timeoutMutatedConfig ≠ provisionedConfig := by
  exact ⟨rfl, by decide⟩

/-- C3 (amended): verification just after provisioning succeeds, and it
is sensitive exactly to the fields it reads: mutating the
`find-providers` binding, either checked endpoint, or a child's
`IgnoreErrors` flag makes it fail, while mutating per-child `Timeout`
values or the `find-peers` binding passes unnoticed. -/
theorem C3_roundtrip :
    verifyKuboConfig provisionedConfig = Except.ok () ∧
    (∀ t1 t2 : String,
      verifyKuboConfig { provisionedConfig with parallelChildren := some [
        ⟨true, "HttpRouter1", t1⟩, ⟨true, "HttpRouter2", t2⟩] } = Except.ok ()) ∧
    (∀ m : Option String,
      verifyKuboConfig { provisionedConfig with methodFindPeers := m } = Except.ok ()) ∧
    (∀ e : Option String, e ≠ some "http://127.0.0.1:19999" →
      ∃ msg, verifyKuboConfig { provisionedConfig with router1Endpoint := e } =
        Except.error msg) ∧
    (∀ m : Option String, m ≠ some "HttpRoutersParallel" →
      ∃ msg, verifyKuboConfig { provisionedConfig with methodFindProviders := m } =
        Except.error msg) ∧
    (∀ b : Bool, b ≠ true →
      ∃ msg, verifyKuboConfig { provisionedConfig with parallelChildren := some [
        ⟨b, "HttpRouter1", "5s"⟩, ⟨true, "HttpRouter2", "5s"⟩] } =
        Except.error msg) := by
  refine ⟨rfl, ?_, ?_, ?_, ?_, ?_⟩
  · intro t1 t2; rfl
  · intro m; rfl
  · intro e he
    exact ⟨"Expected HttpRouter1 endpoint mismatch",
      by simp [verifyKuboConfig, provisionedConfig, he]⟩
  · intro m hm
    exact ⟨"Expected find-providers RouterName to be HttpRoutersParallel",
      by simp [verifyKuboConfig, provisionedConfig, hm]⟩
  · intro b hb
    exact ⟨"Expected IgnoreErrors to be true for HttpRouter1",
      by simp [verifyKuboConfig, verifyChildren, provisionedConfig,
        IGNORE_ERRORS, hb]⟩

/-- Witness for C3: concrete mutations of each checked field are
rejected. -/
theorem C3_roundtrip_witness :
    (∃ msg, verifyKuboConfig { provisionedConfig with router1Endpoint := none } =
      Except.error msg) ∧
    (∃ msg, verifyKuboConfig { provisionedConfig with
      methodFindProviders := some "HttpRouter1" } = Except.error msg) ∧
    (∃ msg, verifyKuboConfig { provisionedConfig with parallelChildren := some [
      ⟨false, "HttpRouter1", "5s"⟩, ⟨true, "HttpRouter2", "5s"⟩] } =
      Except.error msg) :=
  ⟨C3_roundtrip.2.2.2.1 none (by decide),
   C3_roundtrip.2.2.2.2.1 (some "HttpRouter1") (by decide),
   C3_roundtrip.2.2.2.2.2 false (by decide)⟩

/-- C4 counterexample: a POST whose URL matches the provider-query
pattern receives the generic not-found response — no provider body and
no `Cache-Control` header — so the claim's method-independent first
clause fails. -/
theorem C4_counterexample :
    hasProviderMatch "/routing/v1/providers/abc".data = true ∧
    handleRequest ⟨"POST", "/routing/v1/providers/abc"⟩ = genericNotFoundResponse ∧
    genericNotFoundResponse ≠ providerQueryResponse := by
  refine ⟨by decide, ?_, by decide⟩
  decide

/-- C4 (amended): a GET request matching the provider-query pattern gets
status 404 with the literal no-providers body and the cache-control
header; every OPTIONS request gets 200 with no body; every other
request — any other path, or a non-GET method on the provider path —
gets the generic 404 not-found response. -/
theorem C4_mock_router_responses :
    (∀ url : String, hasProviderMatch url.data = true →
      handleRequest ⟨"GET", url⟩ = providerQueryResponse) ∧
    (∀ url : String, handleRequest ⟨"OPTIONS", url⟩ =
      { status := 200, contentType := none, cacheControl := none, body := none }) ∧
    (∀ (m url : String), m ≠ "OPTIONS" →
      (m = "GET" → hasProviderMatch url.data = false) →
      handleRequest ⟨m, url⟩ = genericNotFoundResponse) := by
  refine ⟨?_, ?_, ?_⟩
  · intro url h
    simp [handleRequest, h, providerQueryResponse]
  · intro url; rfl
  · intro m url hm hg
    by_cases hget : m = "GET"
    · simp [handleRequest, hm, hget, hg hget, genericNotFoundResponse]
    · simp [handleRequest, hm, hget, genericNotFoundResponse]

/-- Witness for C4: the three clauses at concrete requests. -/
theorem C4_mock_router_responses_witness :
    handleRequest ⟨"GET", "/routing/v1/providers/abc"⟩ = providerQueryResponse ∧
    handleRequest ⟨"OPTIONS", "/anything"⟩ =
      { status := 200, contentType := none, cacheControl := none, body := none } ∧
    handleRequest ⟨"PUT", "/other"⟩ = genericNotFoundResponse :=
  ⟨C4_mock_router_responses.1 "/routing/v1/providers/abc" (by decide),
   C4_mock_router_responses.2.1 "/anything",
   C4_mock_router_responses.2.2 "PUT" "/other" (by decide)
     (fun h => absurd h (by decide))⟩

/-- C10: a non-GET, non-OPTIONS request whose URL matches the
provider-query pattern receives the generic 404 not-found response,
whose body differs from the provider-specific one. -/
theorem C10_non_get_provider_query (m url : String) (hg : m ≠ "GET")
    (ho : m ≠ "OPTIONS") (_hmatch : hasProviderMatch url.data = true) :
    handleRequest ⟨m, url⟩ = genericNotFoundResponse ∧
    notFoundBody ≠ noProvidersBody := by
  refine ⟨?_, by decide⟩
  simp [handleRequest, ho, hg, genericNotFoundResponse]

/-- Witness for C10: a POST on the provider path. -/
theorem C10_non_get_provider_query_witness :
    handleRequest ⟨"POST", "/routing/v1/providers/abc"⟩ = genericNotFoundResponse ∧
    notFoundBody ≠ noProvidersBody :=
  C10_non_get_provider_query "POST" "/routing/v1/providers/abc"
    (by decide) (by decide) (by decide)

/-- Helper: the wait loop for a never-exiting command ends with an
elapsed time between the deadline and deadline + poll interval.  The
outer induction is on an upper bound for the number of remaining
iterations. -/
theorem probeWaitElapsed_bounds (deadline : Nat) :
    ∀ (n e : Nat), deadline - e ≤ 1000 * n → e < deadline + 1000 →
      deadline ≤ probeWaitElapsed deadline e ∧
        probeWaitElapsed deadline e < deadline + 1000 := by
  intro n
  induction n with
  | zero =>
    intro e hn he
    rw [probeWaitElapsed]
    have : ¬ e < deadline := by omega
    simp [this]
    omega
  | succ n ih =>
    intro e hn he
    rw [probeWaitElapsed]
    by_cases h : e < deadline
    · simp [h]
      exact ih (e + 1000) (by omega) (by omega)
    · simp [h]
      omega

/-- C5: against a command that never exits, the probe phase throws
nothing, sends the force-kill, and produces `timedOut = true` after a
total time of at least the deadline and at most the deadline plus one
poll interval plus the fixed 1000 ms drain. -/
theorem C5_probe_timeout_bound (deadline : Nat) :
    ∃ o : ProbeTimeoutOutcome,
      probeRunNeverExits deadline = Except.ok o ∧
      o.timedOut = true ∧ o.sigkillSent = true ∧
      deadline ≤ o.totalMs ∧ o.totalMs ≤ deadline + 2000 := by
  have h := probeWaitElapsed_bounds deadline deadline 0 (by omega) (by omega)
  refine ⟨⟨true, true, probeWaitElapsed deadline 0 + 1000⟩, rfl, rfl, rfl, ?_, ?_⟩
  · show deadline ≤ probeWaitElapsed deadline 0 + 1000
    omega
  · show probeWaitElapsed deadline 0 + 1000 ≤ deadline + 2000
    omega

/-- C6: the readiness wait has no deadline of its own — against a
daemon that never prints the marker and never exits, the loop is still
waiting after any number of 1-second polls; and whenever it does
terminate, either the marker appeared in the output (ready) or the
daemon was observed to have exited, in which case startup fails
fatally with the daemon's code. -/
theorem C6_readiness_wait_unbounded :
    (∀ (markerSeen : Nat → Bool) (exitCodeAt : Nat → Option Int),
      (∀ t, markerSeen t = false) → (∀ t, exitCodeAt t = none) →
      ∀ fuel t, readinessWait markerSeen exitCodeAt fuel t = .stillWaiting) ∧
    (∀ (markerSeen : Nat → Bool) (exitCodeAt : Nat → Option Int) (fuel t : Nat),
      (readinessWait markerSeen exitCodeAt fuel t = .ready →
        ∃ t', markerSeen t' = true) ∧
      (∀ c, readinessWait markerSeen exitCodeAt fuel t = .startupFailed c →
        ∃ t', exitCodeAt t' = some c)) := by
  constructor
  · intro markerSeen exitCodeAt hm he fuel
    induction fuel with
    | zero => intro t; rfl
    | succ n ih =>
      intro t
      simp [readinessWait, hm t, he (t + 1), ih (t + 1)]
  · intro markerSeen exitCodeAt fuel
    induction fuel with
    | zero =>
      intro t
      constructor
      · intro h
        simp [readinessWait] at h
      · intro c h
        simp [readinessWait] at h
    | succ n ih =>
      intro t
      constructor
      · intro h
        rw [readinessWait] at h
        by_cases hm : markerSeen t
        · exact ⟨t, hm⟩
        · simp [hm] at h
          match hc : exitCodeAt (t + 1) with
          | some c => rw [hc] at h; cases h
          | none => rw [hc] at h; exact (ih (t + 1)).1 h
      · intro c h
        rw [readinessWait] at h
        by_cases hm : markerSeen t
        · simp [hm] at h
        · simp [hm] at h
          match hc : exitCodeAt (t + 1) with
          | some c' =>
            rw [hc] at h
            cases h
            exact ⟨t + 1, hc⟩
          | none => rw [hc] at h; exact (ih (t + 1)).2 c h

/-- Witness for C6: with a daemon that never prints the marker and
never exits, the loop is still waiting after five polls. -/
theorem C6_readiness_wait_unbounded_witness :
    readinessWait (fun _ => false) (fun _ => none) 5 0 = .stillWaiting :=
  C6_readiness_wait_unbounded.1 (fun _ => false) (fun _ => none)
    (fun _ => rfl) (fun _ => rfl) 5 0

end KuboHarness
